import Mathlib

/-
Verification of the client-side analysis-session orchestrator of the
pastefind repository (src/src/App.jsx).  The React component `App` owns six
pieces of state (`url`, `loading`, `recording`, `result`, `error`, `file`)
and four operations (`startRecording`, `handleMicAnalyze`, `handleAnalyze`,
`handleFileChange`) plus the inline input handlers and the `disabled`
guards of the rendered controls.  Everything below is a direct shallow
embedding of that code: JavaScript strings become `String`, `null` becomes
`none`, truthiness of a string is the test against `""`, the fetch is
replaced by an environment-supplied outcome, and the asynchronous
microphone capture is collapsed into one sequential run, as its callbacks
execute in a fixed order (start, auto-stop timeout, onstop, analyze,
track release).
-/

namespace PasteFind

/- ### LinkValidator: the URL shape regex and the blocked-provider test

The source (App.jsx lines 158-171) tests
`/^(https?:\/\/)?([\da-z\.-]+)\.([a-z\.]{2,6})([\/\w \.-]*)*\/?$/`
and then `url.includes('youtube.com') || url.includes('youtu.be')`.
A whole-string match of the regex is exactly: an optional literal scheme
prefix, then a non-empty run of `[0-9a-z.-]`, a literal dot, 2 to 6
characters from `[a-z.]`, and a tail of characters from `[/A-Za-z0-9_ .-]`
(the nested star collapses and the optional trailing slash is absorbed by
the tail class, which contains `/`). -/

/-- Character class `[\da-z\.-]` of the host group of the regex. -/
def isHostChar (c : Char) : Bool :=
  c.isDigit || ('a' ≤ c && c ≤ 'z') || c == '.' || c == '-'

/-- Character class `[a-z\.]` of the 2-to-6 length group of the regex. -/
def isTldChar (c : Char) : Bool :=
  ('a' ≤ c && c ≤ 'z') || c == '.'

/-- Character class `[\/\w \.-]` of the tail group of the regex
(`\w` is `[A-Za-z0-9_]` in a JavaScript regex without the unicode flag). -/
def isPathChar (c : Char) : Bool :=
  c == '/' || c.isAlpha || c.isDigit || c == '_' || c == ' ' || c == '.' || c == '-'

/-- Match of `\.([a-z\.]{2,6})([\/\w \.-]*)*\/?$` against a suffix of the
candidate: a literal dot, then for some j with 2 ≤ j ≤ 6 a block of j
characters of the tld class followed by a tail of path-class characters. -/
def tldPathTest : List Char → Bool
  | [] => false
  | c :: rest =>
    c == '.' &&
    (List.range 7).any fun j =>
      decide (2 ≤ j) && ((rest.take j).length == j) &&
      (rest.take j).all isTldChar && (rest.drop j).all isPathChar

/-- Match of the regex body (everything after the optional scheme) against
a character list: a non-empty host-class prefix followed by a
`tldPathTest` suffix, at some split point `i`. -/
def urlBodyTest (cs : List Char) : Bool :=
  (List.range (cs.length + 1)).any fun i =>
    decide (1 ≤ i) && (cs.take i).all isHostChar && tldPathTest (cs.drop i)

/-- Match of the regex body after consuming the literal scheme alternative
`http://` or `https://` of the optional group `(https?:\/\/)?`. -/
def urlSchemeTest : List Char → Bool
  | 'h' :: 't' :: 't' :: 'p' :: ':' :: '/' :: '/' :: rest => urlBodyTest rest
  | 'h' :: 't' :: 't' :: 'p' :: 's' :: ':' :: '/' :: '/' :: rest => urlBodyTest rest
  | _ => false

/-- `urlPattern.test(url)` of App.jsx line 159-160: the anchored regex
matches the whole string, with or without the optional scheme prefix. -/
def urlPatternTest (s : String) : Bool :=
  urlBodyTest s.toList || urlSchemeTest s.toList

/-- Matching of a pattern against the leading characters of a list
(auxiliary for `String.prototype.includes`). -/
def matchAt : List Char → List Char → Bool
  | [], _ => true
  | _ :: _, [] => false
  | a :: as, b :: bs => a == b && matchAt as bs

/-- `hay.includes(needle)` of JavaScript: the needle occurs contiguously at
some offset of the haystack. -/
def listIncludes (hay needle : List Char) : Bool :=
  (List.range (hay.length + 1)).any fun i => matchAt needle (hay.drop i)

/-- `String.prototype.includes` on Lean strings. -/
def stringIncludes (hay needle : String) : Bool :=
  listIncludes hay.toList needle.toList

/-- The three-way classification the spec calls `LinkValidator`. -/
inductive LinkCheck
  | Valid
  | InvalidFormat
  | BlockedProvider
deriving DecidableEq, Repr

/-- The link-validation logic of App.jsx lines 158-171 as a pure
classification: shape check first, then the blocked-provider substring
tests, in source order. -/
def validateLink (url : String) : LinkCheck :=
  if !(urlPatternTest url) then LinkCheck.InvalidFormat
  else if stringIncludes url "youtube.com" || stringIncludes url "youtu.be" then
    LinkCheck.BlockedProvider
  else LinkCheck.Valid

/- ### Locale table (App.jsx lines 21-54) -/

/-- One entry of the `TRANSLATIONS` table of App.jsx. -/
structure Translations where
  placeholder : String
  or_upload : String
  or_mic : String
  analyze_btn : String
  analyzing : String
  recording : String
  error_server : String
  error_mic : String
  youtube_hint : String
  title_unknown : String
  artist_unknown : String
  invalid_link : String
deriving DecidableEq, Repr

/-- The two locales the auto-detect of App.jsx line 53 can select. -/
inductive Locale
  | fr
  | en
deriving DecidableEq, Repr

/-- `TRANSLATIONS` of App.jsx lines 21-50: the locale table. -/
def TRANSLATIONS : Locale → Translations
  | Locale.fr =>
    { placeholder := "Collez un lien Facebook/TikTok..."
      or_upload := "OU UPLOADEZ UN FICHIER (MP3/MP4)"
      or_mic := "OU MICROPHONE"
      analyze_btn := "ANALYSER"
      analyzing := "ANALYSE EN COURS..."
      recording := "ENREGISTREMENT... (10s max)"
      error_server := "Erreur connexion serveur. Veuillez réessayer."
      error_mic := "Erreur micro. Vérifiez les permissions."
      youtube_hint := "ℹ️ Astuce : Téléchargez la vidéo avec un outil externe et uploadez le fichier ici."
      title_unknown := "Inconnu"
      artist_unknown := "Artiste inconnu"
      invalid_link := "Lien invalide. Veuillez entrer une URL correcte." }
  | Locale.en =>
    { placeholder := "Paste Facebook/TikTok link..."
      or_upload := "OR UPLOAD A FILE (MP3/MP4)"
      or_mic := "OR MICROPHONE"
      analyze_btn := "ANALYZE"
      analyzing := "ANALYZING..."
      recording := "RECORDING... (10s max)"
      error_server := "Server connection error. Please try again."
      error_mic := "Microphone error. Check permissions."
      youtube_hint := "ℹ️ Hint: Download the video externally and upload the file here."
      title_unknown := "Unknown"
      artist_unknown := "Unknown Artist"
      invalid_link := "Invalid link. Please enter a correct URL." }

/-- The hardcoded (locale-independent) blocked-provider message of
App.jsx line 168. -/
def youtubeBlockedMsg : String :=
  "YouTube est bloqué côté serveur. Veuillez utiliser l’upload de fichier."

/-- The placeholder cover reference of App.jsx lines 123 and 196. -/
def defaultCoverUrl : String :=
  "https://via.placeholder.com/300x300?text=No+Cover"

/- ### Backend payload and result normalization -/

/-- The parsed JSON payload of a successful transport response.  Each field
models the corresponding optional property of the response object; `none`
stands for an absent (undefined/null) property. -/
structure Payload where
  error : Option String := none
  title : Option String := none
  subtitle : Option String := none
  image : Option String := none
  youtube_url : Option String := none
  spotify_url : Option String := none
deriving DecidableEq, Repr

/-- The empty payload `{}`. -/
def emptyPayload : Payload := {}

/-- Outcome of one `fetch`: `fail` covers a rejected promise, a non-ok
status (which the code converts to a thrown error) and an unparsable JSON
body; `success` carries the parsed payload. -/
inductive FetchOutcome
  | fail
  | success (data : Payload)
deriving DecidableEq, Repr

/-- JavaScript `x || d` for an optional string property `x`: the default is
taken when the property is absent or the empty string (both falsy). -/
def jsOr (v : Option String) (d : String) : String :=
  match v with
  | none => d
  | some s => if s = "" then d else s

/-- Truthiness of `data.error`: present and not the empty string. -/
def errTruthy (v : Option String) : Bool :=
  match v with
  | none => false
  | some s => !(s = "")

/-- The normalized result record built by App.jsx lines 193-199 (and
identically by lines 120-126 of the microphone path). -/
structure AnalysisResult where
  title : String
  artist : String
  cover_url : String
  youtube_url : String
  spotify_url : String
deriving DecidableEq, Repr

/-- The `setResult({...})` record of App.jsx lines 193-199: every field
defaulted with `||` from the payload (the spec calls this
`ResultNormalizer`). -/
def normalizeResult (t : Translations) (data : Payload) : AnalysisResult :=
  { title := jsOr data.title t.title_unknown
    artist := jsOr data.subtitle t.artist_unknown
    cover_url := jsOr data.image defaultCoverUrl
    youtube_url := jsOr data.youtube_url "#"
    spotify_url := jsOr data.spotify_url "#" }

/- ### Session state and request bookkeeping -/

/-- The six `useState` hooks of App.jsx lines 57-62, in source order.
A file handle is modeled by its name; `none` is the `null` of the code. -/
structure AppState where
  url : String
  loading : Bool
  recording : Bool
  result : Option AnalysisResult
  error : String
  file : Option String
deriving DecidableEq, Repr

/-- The initial state of the six hooks. -/
def initState : AppState :=
  { url := "", loading := false, recording := false
    result := none, error := "", file := none }

/-- The three backend endpoints the component can contact. -/
inductive Endpoint
  | analyze
  | analyzeFile
  | analyzeMic
deriving DecidableEq, Repr

/-- The body shape of an outbound request. -/
inductive RequestBody
  | linkJson (url : String)
  | fileForm (file : String)
  | micForm
deriving DecidableEq, Repr

/-- One outbound network request (endpoint and body). -/
structure Request where
  endpoint : Endpoint
  body : RequestBody
deriving DecidableEq, Repr

/- ### The handlers of App.jsx -/

/-- Shared response interpretation of App.jsx lines 182-206 and 114-133:
a failed transport (non-ok status, rejection, or parse failure) reaches the
catch block and sets `t.error_server`; a payload with a truthy `error`
property sets that message; otherwise the normalized result is stored.
The finally block always ends with `setLoading(false)`. -/
def applyResponse (t : Translations) (s : AppState) (o : FetchOutcome) : AppState :=
  match o with
  | FetchOutcome.fail => { s with error := t.error_server, loading := false }
  | FetchOutcome.success data =>
    match data.error with
    | some m =>
      if m = "" then { s with result := some (normalizeResult t data), loading := false }
      else { s with error := m, loading := false }
    | none => { s with result := some (normalizeResult t data), loading := false }

/-- `handleAnalyze` of App.jsx lines 136-207.  It first sets
`loading := true`, `error := ''`, `result := null`; then either dispatches
the file form, or — in link mode — returns early on an empty url, a failed
shape check, or a blocked provider, or dispatches the link JSON.  The
second component records the request actually issued (`none` when no
network call is made); `o` is the transport outcome consumed only when a
request is issued. -/
def handleAnalyze (t : Translations) (s : AppState) (o : FetchOutcome) :
    AppState × Option Request :=
  match s.file with
  | some f =>
    (applyResponse t { s with loading := true, error := "", result := none } o,
     some { endpoint := Endpoint.analyzeFile, body := RequestBody.fileForm f })
  | none =>
    if s.url = "" then
      ({ s with loading := false, error := "", result := none }, none)
    else if !(urlPatternTest s.url) then
      ({ s with loading := false, error := t.invalid_link, result := none }, none)
    else if stringIncludes s.url "youtube.com" || stringIncludes s.url "youtu.be" then
      ({ s with loading := false, error := youtubeBlockedMsg, result := none }, none)
    else
      (applyResponse t { s with loading := true, error := "", result := none } o,
       some { endpoint := Endpoint.analyze, body := RequestBody.linkJson s.url })

/-- `handleMicAnalyze` of App.jsx lines 103-134: sets `loading := true`,
posts the recorded blob to the microphone endpoint, and interprets the
response exactly as `handleAnalyze` does (it does not clear `error` or
`result` itself; it runs only after `startRecording` cleared them). -/
def handleMicAnalyze (t : Translations) (s : AppState) (o : FetchOutcome) :
    AppState × Request :=
  (applyResponse t { s with loading := true } o,
   { endpoint := Endpoint.analyzeMic, body := RequestBody.micForm })

/-- Resource bookkeeping of one `startRecording` run: whether the device
stream was acquired, whether every track of it was stopped again, and the
request the capture issued (if any). -/
structure MicRun where
  acquired : Bool
  released : Bool
  request : Option Request
deriving DecidableEq, Repr

/-- `startRecording` of App.jsx lines 65-101 together with the callbacks it
installs, collapsed into one sequential run (the callbacks fire in a fixed
order: `start`, the 8000 ms auto-stop timeout, `onstop`, which awaits
`handleMicAnalyze` and then stops every track of the stream).  The state
first clears `error`, `result`, `url` and `file`.  If `getUserMedia` fails
the catch block sets `t.error_mic` and no device was acquired.  Otherwise
`recording` is set `true` at start and back to `false` by the auto-stop
timeout before `onstop` runs; `onstop` awaits `handleMicAnalyze` (which
never throws — it catches internally) and then releases the stream. -/
def micCaptureRun (t : Translations) (s : AppState) (acquireOk : Bool) (o : FetchOutcome) :
    AppState × MicRun :=
  if acquireOk then
    ((handleMicAnalyze t
        { s with error := "", result := none, url := "", file := none, recording := false } o).1,
     { acquired := true, released := true
       request := some (handleMicAnalyze t
         { s with error := "", result := none, url := "", file := none, recording := false } o).2 })
  else
    ({ s with error := t.error_mic, result := none, url := "", file := none },
     { acquired := false, released := false, request := none })

/-- The inline `onChange` handler of the link input (App.jsx lines
237-240): store the text and clear the file. -/
def urlOnChange (s : AppState) (v : String) : AppState :=
  { s with url := v, file := none }

/-- `handleFileChange` of App.jsx lines 209-214: if a file was picked,
store it and clear the link text; otherwise do nothing. -/
def handleFileChange (s : AppState) (picked : Option String) : AppState :=
  match picked with
  | some f => { s with file := some f, url := "" }
  | none => s

/- ### The rendered controls and their disabled guards -/

/-- Typing in the link input, honoring its `disabled={!!file || recording}`
attribute (App.jsx line 241): a disabled input fires no change event. -/
def editLinkInput (s : AppState) (v : String) : AppState :=
  if s.file.isSome || s.recording then s else urlOnChange s v

/-- Picking a file, honoring the file input's `disabled={recording}`
attribute (App.jsx line 253). -/
def chooseFileInput (s : AppState) (picked : Option String) : AppState :=
  if s.recording then s else handleFileChange s picked

/-- Clicking the microphone button, honoring its
`disabled={loading || recording}` attribute (App.jsx line 261): a disabled
button fires no click, so `startRecording` is not invoked and no device
acquisition is attempted (second component `none`). -/
def clickMicButton (t : Translations) (s : AppState) (acquireOk : Bool) (o : FetchOutcome) :
    AppState × Option MicRun :=
  if s.loading || s.recording then (s, none)
  else
    let sr := micCaptureRun t s acquireOk o
    (sr.1, some sr.2)

/-- Clicking the analyze button, honoring its
`disabled={loading || recording || (!url && !file)}` attribute
(App.jsx line 290). -/
def clickAnalyzeButton (t : Translations) (s : AppState) (o : FetchOutcome) :
    AppState × Option Request :=
  if s.loading || s.recording || (s.url = "" && s.file.isNone) then (s, none)
  else handleAnalyze t s o

/-- One completed user interaction, with the environment outcomes it
consumed (fetch result, device-acquisition success). -/
inductive Event
  | edit (v : String)
  | choose (picked : Option String)
  | clickAnalyze (o : FetchOutcome)
  | clickMic (acquireOk : Bool) (o : FetchOutcome)
deriving Repr

/-- Effect of one completed interaction on the component state. -/
def stepEvent (t : Translations) (s : AppState) : Event → AppState
  | Event.edit v => editLinkInput s v
  | Event.choose p => chooseFileInput s p
  | Event.clickAnalyze o => (clickAnalyzeButton t s o).1
  | Event.clickMic a o => (clickMicButton t s a o).1

/-- The state after a sequence of completed interactions from the initial
render. -/
def runEvents (loc : Locale) (evs : List Event) : AppState :=
  evs.foldl (stepEvent (TRANSLATIONS loc)) initState

/- ### The MediaRecorder timeline (App.jsx lines 86-95)

`startRecording` calls `mediaRecorder.start()` and schedules a timeout at
8000 ms whose callback stops the recorder if it is still in the
`recording` state.  The recorder is modeled by its two relevant states and
a timed event trace; an event at time `tm` has taken effect in the state
observed at any time `t ≥ tm`. -/

/-- The delay passed to `setTimeout` in App.jsx line 95. -/
def maxDurationMs : Nat := 8000

/-- The two MediaRecorder states the code distinguishes. -/
inductive MRState
  | recording
  | inactive
deriving DecidableEq, Repr

/-- Events acting on the recorder: an explicit `stop()` call, and the
firing of the auto-stop timeout. -/
inductive MREvent
  | stopCall
  | timeoutFire
deriving DecidableEq, Repr

/-- Effect of one event on the recorder state.  `stop()` always makes the
recorder inactive; the timeout callback (App.jsx lines 90-94) calls
`stop()` only if the state still equals `recording`. -/
def mrStep (st : MRState) : MREvent → MRState
  | MREvent.stopCall => MRState.inactive
  | MREvent.timeoutFire => if st = MRState.recording then MRState.inactive else st

/-- Recorder state observed at time `t` (milliseconds since `start()`),
given the timed event trace of the capture: the events with a timestamp
`≤ t` have been applied, in trace order, to the started recorder. -/
def mrStateAt (trace : List (Nat × MREvent)) (t : Nat) : MRState :=
  ((trace.filter fun e => e.fst ≤ t).map Prod.snd).foldl mrStep MRState.recording

/-- The proposition the spec states as "a file and a URL are never
simultaneously set": at most one pending input is populated. -/
def pendingExclusive (s : AppState) : Prop :=
  s.url = "" ∨ s.file = none

/- ### Helper lemmas -/

/-- An inactive recorder stays inactive under every further event. -/
theorem mr_foldl_inactive (evs : List MREvent) :
    evs.foldl mrStep MRState.inactive = MRState.inactive := by
  induction evs with
  | nil => rfl
  | cons e rest ih => cases e <;> simpa [mrStep] using ih

/-- Processing a trace that contains the timeout firing leaves the
recorder inactive, from any starting state. -/
theorem mr_foldl_of_fire_mem (evs : List MREvent) (st : MRState)
    (h : MREvent.timeoutFire ∈ evs) :
    evs.foldl mrStep st = MRState.inactive := by
  induction evs generalizing st with
  | nil => cases h
  | cons e rest ih =>
    rcases List.mem_cons.mp h with he | hm
    · subst he
      cases st <;> simpa [mrStep] using mr_foldl_inactive rest
    · exact ih (mrStep st e) hm

/-- If the state entering the response interpretation has no result and an
empty error, the interpreted state never has both a result and a non-empty
error. -/
theorem applyResponse_exclusive (t : Translations) (s : AppState) (o : FetchOutcome)
    (hr : s.result = none) (he : s.error = "") :
    (applyResponse t s o).result = none ∨ (applyResponse t s o).error = "" := by
  cases o with
  | fail => exact Or.inl hr
  | success data =>
    obtain ⟨de, dt, ds, di, dy, dsp⟩ := data
    cases de with
    | none => exact Or.inr he
    | some m =>
      by_cases hm : m = ""
      · subst hm; exact Or.inr he
      · simp only [applyResponse]
        rw [if_neg hm]
        exact Or.inl hr

/-- Response interpretation never touches the pending inputs. -/
theorem applyResponse_frame (t : Translations) (s : AppState) (o : FetchOutcome) :
    (applyResponse t s o).url = s.url ∧ (applyResponse t s o).file = s.file := by
  cases o with
  | fail => exact ⟨rfl, rfl⟩
  | success data =>
    obtain ⟨de, dt, ds, di, dy, dsp⟩ := data
    cases de with
    | none => exact ⟨rfl, rfl⟩
    | some m =>
      by_cases hm : m = ""
      · subst hm; exact ⟨rfl, rfl⟩
      · simp only [applyResponse]
        rw [if_neg hm]
        exact ⟨rfl, rfl⟩

/-- A payload with a truthy `error` property makes the response
interpretation store exactly that message. -/
theorem applyResponse_server (t : Translations) (s : AppState) (p : Payload) (m : String)
    (hp : p.error = some m) (hm : m ≠ "") :
    applyResponse t s (FetchOutcome.success p) = { s with error := m, loading := false } := by
  simp only [applyResponse, hp]
  rw [if_neg hm]

/-- `handleAnalyze` never touches the pending inputs. -/
theorem handleAnalyze_frame (t : Translations) (s : AppState) (o : FetchOutcome) :
    (handleAnalyze t s o).1.url = s.url ∧ (handleAnalyze t s o).1.file = s.file := by
  unfold handleAnalyze
  repeat' split
  all_goals first
    | exact ⟨rfl, rfl⟩
    | exact ⟨(applyResponse_frame _ _ _).1, (applyResponse_frame _ _ _).2⟩

/-- Whenever `handleAnalyze` actually issues a request, its final state is
the response interpretation applied to the cleared dispatch-entry state. -/
theorem handleAnalyze_dispatched (t : Translations) (s : AppState) (o : FetchOutcome)
    (hd : (handleAnalyze t s o).2 ≠ none) :
    (handleAnalyze t s o).1 =
      applyResponse t { s with loading := true, error := "", result := none } o := by
  obtain ⟨u, l, r, res, err, f⟩ := s
  cases f with
  | some fv => rfl
  | none =>
    by_cases hu : u = ""
    · subst hu; exact absurd rfl hd
    · cases hpat : urlPatternTest u with
      | false => simp [handleAnalyze, hu, hpat] at hd
      | true =>
        cases hbl : stringIncludes u "youtube.com" || stringIncludes u "youtu.be" with
        | true => simp [handleAnalyze, hu, hpat, hbl] at hd
        | false => simp [handleAnalyze, hu, hpat, hbl]

/-- A microphone run always ends with both pending inputs cleared. -/
theorem micCaptureRun_clears (t : Translations) (s : AppState) (acquireOk : Bool)
    (o : FetchOutcome) :
    (micCaptureRun t s acquireOk o).1.url = "" ∧
    (micCaptureRun t s acquireOk o).1.file = none := by
  cases acquireOk
  · exact ⟨rfl, rfl⟩
  · exact ⟨(applyResponse_frame _ _ _).1, (applyResponse_frame _ _ _).2⟩

/-- A suffix accepted by `tldPathTest` starts with a dot. -/
theorem tldPathTest_dot (l : List Char) (h : tldPathTest l = true) : '.' ∈ l := by
  cases l with
  | nil => cases h
  | cons c rest =>
    simp only [tldPathTest, Bool.and_eq_true, beq_iff_eq] at h
    obtain ⟨hc, -⟩ := h
    subst hc
    exact List.mem_cons_self '.' rest

/-- A character list matched by the regex body contains a dot. -/
theorem urlBodyTest_dot (cs : List Char) (h : urlBodyTest cs = true) : '.' ∈ cs := by
  unfold urlBodyTest at h
  obtain ⟨i, hi, hp⟩ := List.any_eq_true.mp h
  simp only [Bool.and_eq_true] at hp
  exact List.drop_subset i cs (tldPathTest_dot _ hp.2)

/-- A whitespace-only character list is rejected by the regex body. -/
theorem urlBodyTest_ws (cs : List Char) (hws : ∀ c ∈ cs, c.isWhitespace = true) :
    urlBodyTest cs = false := by
  cases hb : urlBodyTest cs with
  | false => rfl
  | true =>
    exact absurd (hws '.' (urlBodyTest_dot cs hb)) (by decide)

/-- A whitespace-only character list matches neither scheme alternative. -/
theorem urlSchemeTest_ws (cs : List Char) (hws : ∀ c ∈ cs, c.isWhitespace = true) :
    urlSchemeTest cs = false := by
  cases cs with
  | nil => rfl
  | cons c rest =>
    have hc := hws c (List.mem_cons_self c rest)
    unfold urlSchemeTest
    split
    · rename_i heq
      injection heq with h1 _
      rw [h1] at hc
      exact absurd hc (by decide)
    · rename_i heq
      injection heq with h1 _
      rw [h1] at hc
      exact absurd hc (by decide)
    · rfl

/-- A whitespace-only string (the empty string included) fails the URL
shape test. -/
theorem urlPatternTest_ws (s : String) (hws : ∀ c ∈ s.toList, c.isWhitespace = true) :
    urlPatternTest s = false := by
  unfold urlPatternTest
  rw [urlBodyTest_ws _ hws, urlSchemeTest_ws _ hws]
  rfl

/- ### Claim theorems -/

/-- C4: every microphone capture is bounded to `maxDurationMs = 8000` ms:
the auto-stop callback stops a still-recording recorder, and on any capture
timeline containing the scheduled timeout firing at 8000 ms the recorder is
inactive at every time from 8000 ms on, so an unbounded capture never
occurs. -/
theorem claim_c4_capture_bounded :
    mrStep MRState.recording MREvent.timeoutFire = MRState.inactive ∧
    maxDurationMs = 8000 ∧
    ∀ (trace : List (Nat × MREvent)) (t : Nat),
      (maxDurationMs, MREvent.timeoutFire) ∈ trace → maxDurationMs ≤ t →
      mrStateAt trace t = MRState.inactive := by
  refine ⟨rfl, rfl, ?_⟩
  intro trace t hmem hle
  unfold mrStateAt
  apply mr_foldl_of_fire_mem
  refine List.mem_map.mpr ⟨(maxDurationMs, MREvent.timeoutFire), List.mem_filter.mpr ⟨hmem, ?_⟩, rfl⟩
  simpa using hle

/-- Witness for C4: the minimal capture timeline, observed exactly at the
bound. -/
theorem claim_c4_capture_bounded_witness :
    mrStateAt [(8000, MREvent.timeoutFire)] 8000 = MRState.inactive :=
  claim_c4_capture_bounded.2.2 [(8000, MREvent.timeoutFire)] 8000
    (List.mem_singleton.mpr rfl) (Nat.le_refl 8000)

/-- C5: a capture whose device acquisition succeeded always ends with the
stream released (every track stopped, in the `onstop` callback), and a
failed acquisition never acquires the device; hence no run of
`startRecording` leaves the microphone device held. -/
theorem claim_c5_device_released :
    ∀ (loc : Locale) (s : AppState) (acquireOk : Bool) (o : FetchOutcome),
      ((micCaptureRun (TRANSLATIONS loc) s acquireOk o).2.acquired = false ∨
       (micCaptureRun (TRANSLATIONS loc) s acquireOk o).2.released = true) ∧
      (micCaptureRun (TRANSLATIONS loc) s false o).2.acquired = false ∧
      (micCaptureRun (TRANSLATIONS loc) s true o).2.released = true := by
  intro loc s acquireOk o
  refine ⟨?_, rfl, rfl⟩
  cases acquireOk
  · exact Or.inl rfl
  · exact Or.inr rfl

/-- C7: normalizing the empty payload yields the locale placeholder title
and artist, the built-in placeholder cover, and the absent-marker `#`
(which is not the empty string) for both link fields; and every absent or
empty optional field degrades to its default, for any payload. -/
theorem claim_c7_normalizer_defaults :
    ∀ loc : Locale,
      normalizeResult (TRANSLATIONS loc) emptyPayload =
        { title := (TRANSLATIONS loc).title_unknown
          artist := (TRANSLATIONS loc).artist_unknown
          cover_url := defaultCoverUrl
          youtube_url := "#", spotify_url := "#" } ∧
      ("#" : String) ≠ "" ∧
      (∀ p : Payload, p.title = none ∨ p.title = some "" →
        (normalizeResult (TRANSLATIONS loc) p).title = (TRANSLATIONS loc).title_unknown) ∧
      (∀ p : Payload, p.subtitle = none ∨ p.subtitle = some "" →
        (normalizeResult (TRANSLATIONS loc) p).artist = (TRANSLATIONS loc).artist_unknown) ∧
      (∀ p : Payload, p.image = none ∨ p.image = some "" →
        (normalizeResult (TRANSLATIONS loc) p).cover_url = defaultCoverUrl) ∧
      (∀ p : Payload, p.youtube_url = none ∨ p.youtube_url = some "" →
        (normalizeResult (TRANSLATIONS loc) p).youtube_url = "#") ∧
      (∀ p : Payload, p.spotify_url = none ∨ p.spotify_url = some "" →
        (normalizeResult (TRANSLATIONS loc) p).spotify_url = "#") := by
  intro loc
  refine ⟨rfl, by decide, ?_, ?_, ?_, ?_, ?_⟩ <;>
    · intro p h
      rcases h with h | h <;> simp [normalizeResult, jsOr, h]

/-- C2: after `handleAnalyze` (the link and file paths, with any transport
outcome, server-reported error included) and after any microphone run
(acquisition failure, transport failure, server error, or success), the
session never holds a result and a non-empty error at the same time. -/
theorem claim_c2_result_error_exclusive :
    ∀ (loc : Locale) (s : AppState) (o : FetchOutcome) (acquireOk : Bool),
      ((handleAnalyze (TRANSLATIONS loc) s o).1.result = none ∨
       (handleAnalyze (TRANSLATIONS loc) s o).1.error = "") ∧
      ((micCaptureRun (TRANSLATIONS loc) s acquireOk o).1.result = none ∨
       (micCaptureRun (TRANSLATIONS loc) s acquireOk o).1.error = "") := by
  intro loc s o acquireOk
  constructor
  · unfold handleAnalyze
    repeat' split
    all_goals first
      | exact Or.inl rfl
      | exact applyResponse_exclusive _ _ _ rfl rfl
  · cases acquireOk
    · exact Or.inl rfl
    · exact applyResponse_exclusive _ _ _ rfl rfl

/-- C6: a click of the microphone button while a capture is active is
dropped by its `disabled` guard: the state is returned unchanged and no
device acquisition is attempted. -/
theorem claim_c6_start_while_recording_rejected :
    ∀ (loc : Locale) (s : AppState) (acquireOk : Bool) (o : FetchOutcome),
      s.recording = true →
      clickMicButton (TRANSLATIONS loc) s acquireOk o = (s, none) := by
  intro loc s acquireOk o h
  simp [clickMicButton, h]

/-- Witness for C6: a concrete recording state. -/
theorem claim_c6_start_while_recording_rejected_witness :
    clickMicButton (TRANSLATIONS Locale.en) { initState with recording := true } true
        FetchOutcome.fail
      = ({ initState with recording := true }, none) :=
  claim_c6_start_while_recording_rejected Locale.en { initState with recording := true } true
    FetchOutcome.fail rfl

/-- C8: a parsed payload carrying a truthy server error field produces no
result: on every dispatching path of `handleAnalyze` and on the microphone
path, the error is set to the server message verbatim and the result stays
null. -/
theorem claim_c8_server_error_verbatim :
    ∀ (loc : Locale) (s : AppState) (p : Payload) (m : String),
      p.error = some m → m ≠ "" →
      ((handleAnalyze (TRANSLATIONS loc) s (FetchOutcome.success p)).2 ≠ none →
        (handleAnalyze (TRANSLATIONS loc) s (FetchOutcome.success p)).1.error = m ∧
        (handleAnalyze (TRANSLATIONS loc) s (FetchOutcome.success p)).1.result = none) ∧
      ((micCaptureRun (TRANSLATIONS loc) s true (FetchOutcome.success p)).1.error = m ∧
       (micCaptureRun (TRANSLATIONS loc) s true (FetchOutcome.success p)).1.result = none) := by
  intro loc s p m hp hm
  constructor
  · intro hd
    rw [handleAnalyze_dispatched _ _ _ hd, applyResponse_server _ _ _ _ hp hm]
    exact ⟨rfl, rfl⟩
  · have hmic : (micCaptureRun (TRANSLATIONS loc) s true (FetchOutcome.success p)).1
        = applyResponse (TRANSLATIONS loc)
            { s with error := "", result := none, url := "", file := none, recording := false, loading := true }
            (FetchOutcome.success p) := rfl
    rw [hmic, applyResponse_server _ _ _ _ hp hm]
    exact ⟨rfl, rfl⟩

/-- Witness for C8: a server-reported error on the file path and on the
microphone path. -/
theorem claim_c8_server_error_verbatim_witness :
    ((handleAnalyze (TRANSLATIONS Locale.en) { initState with file := some "song.mp3" }
        (FetchOutcome.success { emptyPayload with error := some "No match found" })).1.error
        = "No match found" ∧
     (handleAnalyze (TRANSLATIONS Locale.en) { initState with file := some "song.mp3" }
        (FetchOutcome.success { emptyPayload with error := some "No match found" })).1.result
        = none) ∧
    ((micCaptureRun (TRANSLATIONS Locale.en) { initState with file := some "song.mp3" } true
        (FetchOutcome.success { emptyPayload with error := some "No match found" })).1.error
        = "No match found" ∧
     (micCaptureRun (TRANSLATIONS Locale.en) { initState with file := some "song.mp3" } true
        (FetchOutcome.success { emptyPayload with error := some "No match found" })).1.result
        = none) := by
  have h := claim_c8_server_error_verbatim Locale.en { initState with file := some "song.mp3" }
    { emptyPayload with error := some "No match found" } "No match found" rfl (by decide)
  exact ⟨h.1 (by decide), h.2⟩

/-- C10: running `handleAnalyze` with no chosen file and an empty link
still clears the previous result and error, then returns before any
network request, reporting no new error. -/
theorem claim_c10_empty_attempt_clears :
    ∀ (loc : Locale) (s : AppState) (o : FetchOutcome),
      s.file = none → s.url = "" →
      handleAnalyze (TRANSLATIONS loc) s o =
        ({ s with loading := false, error := "", result := none }, none) := by
  intro loc s o hf hu
  simp [handleAnalyze, hf, hu]

/-- Witness for C10: an idle state still showing a previous result. -/
theorem claim_c10_empty_attempt_clears_witness :
    handleAnalyze (TRANSLATIONS Locale.fr)
        { initState with result := some (normalizeResult (TRANSLATIONS Locale.fr) emptyPayload) }
        FetchOutcome.fail
      = (initState, none) :=
  claim_c10_empty_attempt_clears Locale.fr
    { initState with result := some (normalizeResult (TRANSLATIONS Locale.fr) emptyPayload) }
    FetchOutcome.fail rfl rfl

/-- C3: every string failing the URL shape check is classified
`InvalidFormat` — the empty string and every whitespace-only string among
them — and a `BlockedProvider` classification can only arise from a string
that passed the shape check. -/
theorem claim_c3_invalid_format :
    (∀ s : String, urlPatternTest s = false → validateLink s = LinkCheck.InvalidFormat) ∧
    validateLink "" = LinkCheck.InvalidFormat ∧
    (∀ s : String, s.toList.all Char.isWhitespace = true →
      validateLink s = LinkCheck.InvalidFormat) ∧
    (∀ s : String, validateLink s = LinkCheck.BlockedProvider → urlPatternTest s = true) := by
  refine ⟨?_, by decide, ?_, ?_⟩
  · intro s h
    simp [validateLink, h]
  · intro s h
    have hws := List.all_eq_true.mp h
    simp [validateLink, urlPatternTest_ws s hws]
  · intro s h
    cases hp : urlPatternTest s with
    | true => rfl
    | false => simp [validateLink, hp] at h

/-- Witness for C3: a whitespace string, a dotless string, and a
shape-passing blocked URL. -/
theorem claim_c3_invalid_format_witness :
    validateLink " " = LinkCheck.InvalidFormat ∧
    validateLink "notaurl" = LinkCheck.InvalidFormat ∧
    urlPatternTest "youtu.be/x" = true :=
  ⟨claim_c3_invalid_format.2.2.1 " " (by decide),
   claim_c3_invalid_format.1 "notaurl" (by decide),
   claim_c3_invalid_format.2.2.2 "youtu.be/x" (by decide)⟩

/-- C9 helper: the session invariant is preserved by every completed
interaction. -/
theorem stepEvent_pending (loc : Locale) (s : AppState) (e : Event)
    (h : pendingExclusive s) :
    pendingExclusive (stepEvent (TRANSLATIONS loc) s e) := by
  cases e with
  | edit v =>
    show pendingExclusive (editLinkInput s v)
    unfold editLinkInput
    split
    · exact h
    · exact Or.inr rfl
  | choose p =>
    show pendingExclusive (chooseFileInput s p)
    unfold chooseFileInput
    split
    · exact h
    · cases p with
      | some f => exact Or.inl rfl
      | none => exact h
  | clickAnalyze o =>
    show pendingExclusive (clickAnalyzeButton (TRANSLATIONS loc) s o).1
    unfold clickAnalyzeButton
    split
    · exact h
    · rcases h with h | h
      · exact Or.inl ((handleAnalyze_frame _ _ _).1.trans h)
      · exact Or.inr ((handleAnalyze_frame _ _ _).2.trans h)
  | clickMic a o =>
    show pendingExclusive (clickMicButton (TRANSLATIONS loc) s a o).1
    unfold clickMicButton
    split
    · exact h
    · exact Or.inl (micCaptureRun_clears _ _ _ _).1

/-- C9 helper: the session invariant holds in every reachable state. -/
theorem runEvents_pending (loc : Locale) (evs : List Event) :
    pendingExclusive (runEvents loc evs) := by
  unfold runEvents
  have hstep : ∀ (l : List Event) (s : AppState), pendingExclusive s →
      pendingExclusive (l.foldl (stepEvent (TRANSLATIONS loc)) s) := by
    intro l
    induction l with
    | nil => exact fun s h => h
    | cons e rest ih => exact fun s h => ih _ (stepEvent_pending loc s e h)
  exact hstep evs initState (Or.inl rfl)

/-- C9: the handlers keep at most one pending input populated — editing
the link clears the file, choosing a file clears the link, a microphone
run clears both — and consequently in every state reachable from the
initial render a file and a URL are never simultaneously set. -/
theorem claim_c9_single_pending_input :
    (∀ (s : AppState) (v : String), (urlOnChange s v).file = none) ∧
    (∀ (s : AppState) (f : String), (handleFileChange s (some f)).url = "") ∧
    (∀ (loc : Locale) (s : AppState) (a : Bool) (o : FetchOutcome),
      (micCaptureRun (TRANSLATIONS loc) s a o).1.url = "" ∧
      (micCaptureRun (TRANSLATIONS loc) s a o).1.file = none) ∧
    (∀ (loc : Locale) (evs : List Event),
      (runEvents loc evs).url = "" ∨ (runEvents loc evs).file = none) :=
  ⟨fun _ _ => rfl, fun _ _ => rfl,
   fun loc s a o => micCaptureRun_clears (TRANSLATIONS loc) s a o,
   fun loc evs => runEvents_pending loc evs⟩

/-- C1: evaluation of the code on the claim's end-to-end input.  The string
`"https://youtube.com/watch?v=1"` fails the URL shape check (`?` and `=`
belong to no character class of the regex), so the session is failed with
the invalid-link message, not the blocked-provider message: the
blocked-provider branch — which does fire for the query-less
`"https://youtube.com/watch"` — is unreachable for every canonical YouTube
watch URL.  No request is dispatched, and the previous result is cleared
rather than left untouched. -/
theorem claim_c1_blocked_provider_bug :
    urlPatternTest "https://youtube.com/watch?v=1" = false ∧
    validateLink "https://youtube.com/watch?v=1" = LinkCheck.InvalidFormat ∧
    validateLink "https://youtube.com/watch" = LinkCheck.BlockedProvider ∧
    (handleAnalyze (TRANSLATIONS Locale.fr)
        { initState with url := "https://youtube.com/watch?v=1", result := some (normalizeResult (TRANSLATIONS Locale.fr) emptyPayload) }
        FetchOutcome.fail).1.error = (TRANSLATIONS Locale.fr).invalid_link ∧
    (handleAnalyze (TRANSLATIONS Locale.fr)
        { initState with url := "https://youtube.com/watch?v=1", result := some (normalizeResult (TRANSLATIONS Locale.fr) emptyPayload) }
        FetchOutcome.fail).1.error ≠ youtubeBlockedMsg ∧
    (handleAnalyze (TRANSLATIONS Locale.fr)
        { initState with url := "https://youtube.com/watch?v=1", result := some (normalizeResult (TRANSLATIONS Locale.fr) emptyPayload) }
        FetchOutcome.fail).1.result = none ∧
    (handleAnalyze (TRANSLATIONS Locale.fr)
        { initState with url := "https://youtube.com/watch?v=1", result := some (normalizeResult (TRANSLATIONS Locale.fr) emptyPayload) }
        FetchOutcome.fail).2 = none := by
  decide

/-- Witness for C7: the defaulting conjuncts applied to the empty payload
and to a payload with empty-string fields. -/
theorem claim_c7_normalizer_defaults_witness :
    (normalizeResult (TRANSLATIONS Locale.en) emptyPayload).title
        = (TRANSLATIONS Locale.en).title_unknown ∧
    (normalizeResult (TRANSLATIONS Locale.en) emptyPayload).artist
        = (TRANSLATIONS Locale.en).artist_unknown ∧
    (normalizeResult (TRANSLATIONS Locale.fr) { emptyPayload with image := some "" }).cover_url
        = defaultCoverUrl ∧
    (normalizeResult (TRANSLATIONS Locale.fr) { emptyPayload with youtube_url := some "" }).youtube_url
        = "#" ∧
    (normalizeResult (TRANSLATIONS Locale.fr) emptyPayload).spotify_url = "#" :=
  ⟨(claim_c7_normalizer_defaults Locale.en).2.2.1 emptyPayload (Or.inl rfl),
   (claim_c7_normalizer_defaults Locale.en).2.2.2.1 emptyPayload (Or.inl rfl),
   (claim_c7_normalizer_defaults Locale.fr).2.2.2.2.1 _ (Or.inr rfl),
   (claim_c7_normalizer_defaults Locale.fr).2.2.2.2.2.1 _ (Or.inr rfl),
   (claim_c7_normalizer_defaults Locale.fr).2.2.2.2.2.2 emptyPayload (Or.inl rfl)⟩

end PasteFind
